import Mathlib

/-!
Verification of the iobus wire protocol and transport handlers.

Shallow embedding of `protocol/messages.py` (binary codec),
`server/transport/tcp_server.py` (control-plane session manager) and
`server/transport/udp_server.py` (data-plane dispatcher).

Modelling conventions:
* bytes are natural numbers (values below 256 on the wire), byte strings are
  lists of naturals; Python `str` fields are modelled by their UTF-8 bytes;
* Python floats are modelled as exact rationals (`ℚ`), `time.monotonic()`
  instants as rationals;
* Python object identity (the `is` operator) is modelled by a `tag` field
  that the admission path fills with a fresh value;
* exceptions are modelled with `Except`: a raising operation returns
  `Except.error`, a `try/except` converts the error to its handler's result.
-/

def PROTOCOL_VERSION : Nat := 1

def HEADER_SIZE : Nat := 4

def MAX_PAYLOAD_SIZE : Nat := 512

def CLIENT_NAME_MAX_LENGTH : Nat := 32

/-- Python `int(q)` — truncation toward zero — on an exact rational. -/
def pyInt (q : ℚ) : Int := Int.tdiv q.num (q.den : Int)

/-- Big-endian 2-byte encoding, as produced by `struct.pack` format `H`. -/
def u16e (n : Nat) : List Nat := [n / 256, n % 256]

/-- Big-endian 4-byte encoding, `struct.pack` format `I`. -/
def u32e (n : Nat) : List Nat := u16e (n / 65536) ++ u16e (n % 65536)

/-- Big-endian signed 2-byte encoding (two's complement), `struct.pack` format `h`. -/
def i16e (x : Int) : List Nat := u16e (x % 65536).toNat

/-- Read one byte; fails on an exhausted buffer the way `struct.unpack` / indexing raise. -/
def rdU8 : List Nat → Except String (Nat × List Nat)
  | [] => Except.error "TruncatedPayload"
  | b :: r => Except.ok (b, r)

/-- Read a big-endian u16, `struct.unpack` format `H`. -/
def rdU16 (l : List Nat) : Except String (Nat × List Nat) := do
  let (a, r1) ← rdU8 l
  let (b, r2) ← rdU8 r1
  return (a * 256 + b, r2)

/-- Read a big-endian u32, `struct.unpack` format `I`. -/
def rdU32 (l : List Nat) : Except String (Nat × List Nat) := do
  let (a, r1) ← rdU16 l
  let (b, r2) ← rdU16 r1
  return (a * 65536 + b, r2)

/-- Reinterpret an unsigned 16-bit value as two's-complement signed. -/
def i16val (u : Nat) : Int := if u < 32768 then (u : Int) else (u : Int) - 65536

/-- Read a big-endian signed 16-bit value, `struct.unpack` format `h`. -/
def rdI16 (l : List Nat) : Except String (Int × List Nat) := do
  let (u, r) ← rdU16 l
  return (i16val u, r)

/-- Python `bytes.rstrip(b"\x00")`: strip all trailing zero bytes. -/
def rstrip0 (l : List Nat) : List Nat :=
  (l.reverse.dropWhile (fun b => b == 0)).reverse

/-- Python `bytes.ljust(w, b"\x00")`: right-pad with zero bytes up to width `w`. -/
def ljust0 (l : List Nat) (w : Nat) : List Nat := l ++ List.replicate (w - l.length) 0

inductive MessageType
  | HANDSHAKE_REQ | HANDSHAKE_ACK | HANDSHAKE_REJECT
  | PING | PONG | DISCONNECT
  | MOUSE_MOVE | MOUSE_CLICK | MOUSE_SCROLL | MOUSE_DRAG
  | KEY_EVENT | SYSTEM_ACTION | LAUNCH_APP
  | GET_SYSTEM_STATE | SYSTEM_STATE_RESPONSE | ACK | COMMAND_ERROR
  | ERROR
  deriving DecidableEq

/-- Wire code of each message type (`MessageType` enum values). -/
def MessageType.code : MessageType → Nat
  | .HANDSHAKE_REQ => 0x01
  | .HANDSHAKE_ACK => 0x02
  | .HANDSHAKE_REJECT => 0x03
  | .PING => 0x10
  | .PONG => 0x11
  | .DISCONNECT => 0x1F
  | .MOUSE_MOVE => 0x20
  | .MOUSE_CLICK => 0x21
  | .MOUSE_SCROLL => 0x22
  | .MOUSE_DRAG => 0x23
  | .KEY_EVENT => 0x30
  | .SYSTEM_ACTION => 0x40
  | .LAUNCH_APP => 0x50
  | .GET_SYSTEM_STATE => 0x5F
  | .SYSTEM_STATE_RESPONSE => 0x60
  | .ACK => 0x61
  | .COMMAND_ERROR => 0x62
  | .ERROR => 0xFF

/-- Python `MessageType(n)`: look a wire code up in the closed enumeration. -/
def MessageType.ofNat? (n : Nat) : Option MessageType :=
  if n = 0x01 then some .HANDSHAKE_REQ
  else if n = 0x02 then some .HANDSHAKE_ACK
  else if n = 0x03 then some .HANDSHAKE_REJECT
  else if n = 0x10 then some .PING
  else if n = 0x11 then some .PONG
  else if n = 0x1F then some .DISCONNECT
  else if n = 0x20 then some .MOUSE_MOVE
  else if n = 0x21 then some .MOUSE_CLICK
  else if n = 0x22 then some .MOUSE_SCROLL
  else if n = 0x23 then some .MOUSE_DRAG
  else if n = 0x30 then some .KEY_EVENT
  else if n = 0x40 then some .SYSTEM_ACTION
  else if n = 0x50 then some .LAUNCH_APP
  else if n = 0x5F then some .GET_SYSTEM_STATE
  else if n = 0x60 then some .SYSTEM_STATE_RESPONSE
  else if n = 0x61 then some .ACK
  else if n = 0x62 then some .COMMAND_ERROR
  else if n = 0xFF then some .ERROR
  else none

inductive MouseButton
  | LEFT | RIGHT | MIDDLE
  deriving DecidableEq

def MouseButton.code : MouseButton → Nat
  | .LEFT => 0
  | .RIGHT => 1
  | .MIDDLE => 2

def MouseButton.ofNat? : Nat → Option MouseButton
  | 0 => some .LEFT
  | 1 => some .RIGHT
  | 2 => some .MIDDLE
  | _ => none

inductive ClickAction
  | PRESS | RELEASE
  deriving DecidableEq

def ClickAction.code : ClickAction → Nat
  | .PRESS => 0
  | .RELEASE => 1

def ClickAction.ofNat? : Nat → Option ClickAction
  | 0 => some .PRESS
  | 1 => some .RELEASE
  | _ => none

inductive KeyAction
  | KEY_DOWN | KEY_UP
  deriving DecidableEq

def KeyAction.code : KeyAction → Nat
  | .KEY_DOWN => 0
  | .KEY_UP => 1

def KeyAction.ofNat? : Nat → Option KeyAction
  | 0 => some .KEY_DOWN
  | 1 => some .KEY_UP
  | _ => none

inductive SystemActionId
  | LOCK_SCREEN | POWER_DIALOG | SLEEP | SHUTDOWN | RESTART
  deriving DecidableEq

def SystemActionId.code : SystemActionId → Nat
  | .LOCK_SCREEN => 1
  | .POWER_DIALOG => 2
  | .SLEEP => 3
  | .SHUTDOWN => 4
  | .RESTART => 5

def SystemActionId.ofNat? : Nat → Option SystemActionId
  | 1 => some .LOCK_SCREEN
  | 2 => some .POWER_DIALOG
  | 3 => some .SLEEP
  | 4 => some .SHUTDOWN
  | 5 => some .RESTART
  | _ => none

/-- Decoded protocol messages: the tagged union over all wire variants
(`protocol/messages.py` dataclasses; payload-less types are plain constructors,
the free-text `ERROR` payload is `errorText`). -/
inductive Message
  | handshakeReq (client_version flags : Nat) (client_name : List Nat)
  | handshakeAck (server_version flags udp_port keepalive_interval : Nat)
  | handshakeReject (server_version reason_code : Nat)
  | ping
  | pong
  | disconnect
  | mouseMove (timestamp : Nat) (dx dy : Int)
  | mouseClick (timestamp : Nat) (button : MouseButton) (action : ClickAction)
  | mouseScroll (timestamp : Nat) (dx dy : Int)
  | mouseDrag (timestamp : Nat) (button : MouseButton) (dx dy : Int)
  | keyEvent (timestamp : Nat) (action : KeyAction) (keycode modifiers : Nat)
  | systemAction (timestamp : Nat) (action_id : SystemActionId)
  | launchApp (timestamp : Nat) (app_name : List Nat)
  | getSystemState
  | systemStateResponse (brightness volume : ℚ) (is_muted is_locked : Bool)
  | ack (app_id : Nat)
  | commandError (app_id : Nat)
  | errorText (message : List Nat)
  deriving DecidableEq

/-- Wire message type of each variant. -/
def Message.msgType : Message → MessageType
  | .handshakeReq .. => .HANDSHAKE_REQ
  | .handshakeAck .. => .HANDSHAKE_ACK
  | .handshakeReject .. => .HANDSHAKE_REJECT
  | .ping => .PING
  | .pong => .PONG
  | .disconnect => .DISCONNECT
  | .mouseMove .. => .MOUSE_MOVE
  | .mouseClick .. => .MOUSE_CLICK
  | .mouseScroll .. => .MOUSE_SCROLL
  | .mouseDrag .. => .MOUSE_DRAG
  | .keyEvent .. => .KEY_EVENT
  | .systemAction .. => .SYSTEM_ACTION
  | .launchApp .. => .LAUNCH_APP
  | .getSystemState => .GET_SYSTEM_STATE
  | .systemStateResponse .. => .SYSTEM_STATE_RESPONSE
  | .ack .. => .ACK
  | .commandError .. => .COMMAND_ERROR
  | .errorText .. => .ERROR

/-- The u16 field value `int(q * 100) & 0xFFFF` used by
`SystemStateResponse.encode` for brightness and volume. -/
def ssrField (q : ℚ) : Nat := (pyInt (q * 100) % 65536).toNat

/-- The flags field of `SystemStateResponse.encode`:
bit 0 = muted, bit 1 = locked. -/
def ssrFlags (is_muted is_locked : Bool) : Nat :=
  (if is_muted then 1 else 0) ||| (if is_locked then 2 else 0)

/-- Payload bytes of each message variant, as built by the per-class
`encode` methods of `protocol/messages.py` (without the 4-byte header). -/
def encodePayload : Message → List Nat
  | .handshakeReq v f name => u16e v ++ u16e f ++ ljust0 (name.take 32) 32
  | .handshakeAck v f p k => u16e v ++ u16e f ++ u16e p ++ u16e k
  | .handshakeReject v r => u16e v ++ u16e r
  | .ping => []
  | .pong => []
  | .disconnect => []
  | .mouseMove ts dx dy => u32e ts ++ i16e dx ++ i16e dy
  | .mouseClick ts b a => u32e ts ++ [b.code, a.code]
  | .mouseScroll ts dx dy => u32e ts ++ i16e dx ++ i16e dy
  | .mouseDrag ts b dx dy => u32e ts ++ [b.code] ++ i16e dx ++ i16e dy
  | .keyEvent ts a kc mods => u32e ts ++ [a.code] ++ u16e kc ++ [mods]
  | .systemAction ts a => u32e ts ++ [a.code]
  | .launchApp ts name => u32e ts ++ [(name.take 128).length] ++ name.take 128
  | .getSystemState => []
  | .systemStateResponse b v m l => u16e (ssrField b) ++ u16e (ssrField v) ++ u16e (ssrFlags m l)
  | .ack a => [a]
  | .commandError a => [a]
  | .errorText msg => msg.take 256

/-- `Header.encode() + payload`: 4-byte header (version, type code, payload
length big-endian) followed by the payload. -/
def encodeMsg (m : Message) : List Nat :=
  PROTOCOL_VERSION :: m.msgType.code ::
    (encodePayload m).length / 256 :: (encodePayload m).length % 256 :: encodePayload m

/-- Per-type payload decoding: the `decode` classmethods of
`protocol/messages.py`, dispatched as in `_DECODERS`. -/
def decodeBody : MessageType → List Nat → Except String Message
  | .HANDSHAKE_REQ, payload => do
      let (v, r1) ← rdU16 payload
      let (f, r2) ← rdU16 r1
      return .handshakeReq v f (rstrip0 (r2.take 32))
  | .HANDSHAKE_ACK, payload => do
      let (v, r1) ← rdU16 payload
      let (f, r2) ← rdU16 r1
      let (p, r3) ← rdU16 r2
      let (k, r4) ← rdU16 r3
      if r4.isEmpty then return .handshakeAck v f p k
      else Except.error "TruncatedPayload"
  | .HANDSHAKE_REJECT, payload => do
      let (v, r1) ← rdU16 payload
      let (r, r2) ← rdU16 r1
      if r2.isEmpty then return .handshakeReject v r
      else Except.error "TruncatedPayload"
  | .PING, _ => return .ping
  | .PONG, _ => return .pong
  | .DISCONNECT, _ => return .disconnect
  | .MOUSE_MOVE, payload => do
      let (ts, r1) ← rdU32 payload
      let (dx, r2) ← rdI16 r1
      let (dy, _) ← rdI16 r2
      return .mouseMove ts dx dy
  | .MOUSE_CLICK, payload => do
      let (ts, r1) ← rdU32 payload
      let (b, r2) ← rdU8 r1
      let (a, _) ← rdU8 r2
      match MouseButton.ofNat? b, ClickAction.ofNat? a with
      | some btn, some act => return .mouseClick ts btn act
      | _, _ => Except.error "InvalidEnumValue"
  | .MOUSE_SCROLL, payload => do
      let (ts, r1) ← rdU32 payload
      let (dx, r2) ← rdI16 r1
      let (dy, _) ← rdI16 r2
      return .mouseScroll ts dx dy
  | .MOUSE_DRAG, payload => do
      let (ts, r1) ← rdU32 payload
      let (b, r2) ← rdU8 r1
      let (dx, r3) ← rdI16 r2
      let (dy, _) ← rdI16 r3
      match MouseButton.ofNat? b with
      | some btn => return .mouseDrag ts btn dx dy
      | none => Except.error "InvalidEnumValue"
  | .KEY_EVENT, payload => do
      let (ts, r1) ← rdU32 payload
      let (a, r2) ← rdU8 r1
      let (kc, r3) ← rdU16 r2
      let (mods, _) ← rdU8 r3
      match KeyAction.ofNat? a with
      | some act => return .keyEvent ts act kc mods
      | none => Except.error "InvalidEnumValue"
  | .SYSTEM_ACTION, payload => do
      let (ts, r1) ← rdU32 payload
      let (a, _) ← rdU8 r1
      match SystemActionId.ofNat? a with
      | some act => return .systemAction ts act
      | none => Except.error "InvalidEnumValue"
  | .LAUNCH_APP, payload => do
      let (ts, r1) ← rdU32 payload
      let (nlen, r2) ← rdU8 r1
      return .launchApp ts (r2.take nlen)
  | .GET_SYSTEM_STATE, _ => return .getSystemState
  | .SYSTEM_STATE_RESPONSE, payload => do
      let (b, r1) ← rdU16 payload
      let (v, r2) ← rdU16 r1
      let (fl, _) ← rdU16 r2
      return .systemStateResponse ((b : ℚ) / 100) ((v : ℚ) / 100)
        ((fl &&& 1) != 0) ((fl &&& 2) != 0)
  | .ACK, payload => do
      let (a, _) ← rdU8 payload
      return .ack a
  | .COMMAND_ERROR, payload => do
      let (a, _) ← rdU8 payload
      return .commandError a
  | .ERROR, payload => return .errorText payload

/-- `decode_message`: decode the 4-byte header, slice the declared payload,
and dispatch by message type; fails on a truncated header or unknown type. -/
def decodeMessage (data : List Nat) : Except String Message :=
  match data with
  | _ :: t :: hi :: lo :: rest =>
    match MessageType.ofNat? t with
    | none => Except.error "UnknownMessageType"
    | some mt => decodeBody mt (rest.take (hi * 256 + lo))
  | _ => Except.error "TruncatedHeader"

/-- Valid field values of a message: numeric fields within their wire-field
ranges, name bytes within their caps (and, for the null-padded client name,
no trailing zero byte, which the fixed-width convention cannot represent),
brightness and volume exact two-decimal values in the representable range. -/
def Message.Wf : Message → Prop
  | .handshakeReq v f name => v < 65536 ∧ f < 65536 ∧ name.length ≤ 32 ∧
      (∀ b ∈ name, b < 256) ∧ rstrip0 name = name
  | .handshakeAck v f p k => v < 65536 ∧ f < 65536 ∧ p < 65536 ∧ k < 65536
  | .handshakeReject v r => v < 65536 ∧ r < 65536
  | .ping => True
  | .pong => True
  | .disconnect => True
  | .mouseMove ts dx dy => ts < 4294967296 ∧
      -32768 ≤ dx ∧ dx < 32768 ∧ -32768 ≤ dy ∧ dy < 32768
  | .mouseClick ts _ _ => ts < 4294967296
  | .mouseScroll ts dx dy => ts < 4294967296 ∧
      -32768 ≤ dx ∧ dx < 32768 ∧ -32768 ≤ dy ∧ dy < 32768
  | .mouseDrag ts _ dx dy => ts < 4294967296 ∧
      -32768 ≤ dx ∧ dx < 32768 ∧ -32768 ≤ dy ∧ dy < 32768
  | .keyEvent ts _ kc mods => ts < 4294967296 ∧ kc < 65536 ∧ mods < 256
  | .systemAction ts _ => ts < 4294967296
  | .launchApp ts name => ts < 4294967296 ∧ name.length ≤ 128 ∧ ∀ b ∈ name, b < 256
  | .getSystemState => True
  | .systemStateResponse b v _ _ =>
      (∃ k : Nat, k ≤ 65535 ∧ b = (k : ℚ) / 100) ∧
      (∃ k : Nat, k ≤ 65535 ∧ v = (k : ℚ) / 100)
  | .ack a => a < 256
  | .commandError a => a < 256
  | .errorText msg => msg.length ≤ 256 ∧ ∀ b ∈ msg, b < 256

/-- Server configuration fields the transport components read
(`server/config.py`). -/
structure ServerConfig where
  udp_port : Nat
  keepalive_interval : Nat
  keepalive_timeout_multiplier : Nat
  deriving DecidableEq

/-- `ServerConfig.keepalive_timeout`: seconds of missed pongs before a client
is considered dead. -/
def ServerConfig.keepalive_timeout (c : ServerConfig) : Nat :=
  c.keepalive_interval * c.keepalive_timeout_multiplier

/-- `ClientSession` (`server/transport/tcp_server.py`): the single admitted
client.  `tag` models Python object identity (`is`); handshake admission
assigns a fresh tag. -/
structure ClientSession where
  tag : Nat
  name : List Nat
  addrIp : String
  addrPort : Nat
  protocol_version : Nat
  session_id : Nat
  connected_at : ℚ
  last_pong : ℚ
  deriving DecidableEq

/-- Decoded `HandshakeReq` as consumed by `_on_handshake`. -/
structure HandshakeReqD where
  client_version : Nat
  flags : Nat
  client_name : List Nat
  deriving DecidableEq

/-- `HandshakeReq.decode(payload)`. -/
def handshakeReqDecode (payload : List Nat) : Except String HandshakeReqD := do
  let (v, r1) ← rdU16 payload
  let (f, r2) ← rdU16 r1
  return ⟨v, f, rstrip0 (r2.take 32)⟩

/-- Decoded `LaunchApp` as consumed by `_on_launch_app`. -/
structure LaunchAppD where
  timestamp : Nat
  app_name : List Nat
  deriving DecidableEq

/-- `LaunchApp.decode(payload)`. -/
def launchAppDecode (payload : List Nat) : Except String LaunchAppD := do
  let (ts, r1) ← rdU32 payload
  let (nlen, r2) ← rdU8 r1
  return ⟨ts, r2.take nlen⟩

/-- `encode_error`: an ERROR message with the UTF-8 text capped at 256 bytes. -/
def encode_error (msgBytes : List Nat) : List Nat := encodeMsg (.errorText msgBytes)

/-- ASCII bytes of a literal string (all texts used here are plain ASCII,
where UTF-8 bytes and code points coincide). -/
def asciiBytes (s : String) : List Nat := s.data.map Char.toNat

/-- One uppercase hex digit, as produced by Python format `X`. -/
def hexDigit (n : Nat) : Nat := if n < 10 then 48 + n else 55 + n

/-- Python format `02X` of a byte value. -/
def hexByte (n : Nat) : List Nat := [hexDigit (n / 16), hexDigit (n % 16)]

/-- The f-string `"Unexpected message type: 0x{msg_type:02X}"` from
`_handle_message`. -/
def unexpectedTypeText (t : MessageType) : List Nat :=
  asciiBytes "Unexpected message type: 0x" ++ hexByte t.code

/-- `TCPControlServer.remove_client`: clear the active-session slot only if
the removed session is the registered one (Python `is`, modelled by `tag`). -/
def removeClient (serverClient : Option ClientSession) (s : ClientSession) :
    Option ClientSession :=
  match serverClient with
  | some c => if c.tag = s.tag then none else some c
  | none => none

/-- `TCPControlProtocol.connection_lost`: drop the protocol's session and
deregister it from the server (first component: server slot after; second:
the protocol's `_session` after). -/
def connectionLost (serverClient : Option ClientSession)
    (session : Option ClientSession) : Option ClientSession × Option ClientSession :=
  match session with
  | some s => (removeClient serverClient s, none)
  | none => (serverClient, none)

/-- Observable outcome of handling one control-plane message: the server's
active-session slot, the connection's `_session`, the replies written to the
transport, and whether the handler closed the transport. -/
structure HandleOut where
  serverClient : Option ClientSession
  session : Option ClientSession
  sent : List (List Nat)
  closedTransport : Bool
  deriving DecidableEq

/-- `_on_handshake` after decoding: version check, then single-client check,
then admission (fresh session, registration, ack). -/
def onHandshake (serverClient : Option ClientSession) (session : Option ClientSession)
    (peer : String × Nat) (cfg : ServerConfig) (req : HandshakeReqD)
    (freshTag freshSessionId : Nat) (now : ℚ) : HandleOut :=
  if req.client_version ≠ PROTOCOL_VERSION then
    { serverClient := serverClient, session := session,
      sent := [encodeMsg (.handshakeReject PROTOCOL_VERSION 1)],
      closedTransport := false }
  else if serverClient.isSome then
    { serverClient := serverClient, session := session,
      sent := [encodeMsg (.handshakeReject PROTOCOL_VERSION 2)],
      closedTransport := false }
  else
    let s : ClientSession :=
      { tag := freshTag, name := req.client_name, addrIp := peer.1,
        addrPort := peer.2, protocol_version := req.client_version,
        session_id := freshSessionId, connected_at := now, last_pong := now }
    { serverClient := some s, session := some s,
      sent := [encodeMsg (.handshakeAck PROTOCOL_VERSION 0 cfg.udp_port
        cfg.keepalive_interval)],
      closedTransport := false }

/-- `_on_pong` mutates the shared session object; both references (the
protocol's and, when it aliases it, the server slot's) observe the update. -/
def touchPong (now : ℚ) (tag : Nat) (o : Option ClientSession) : Option ClientSession :=
  o.map (fun s => if s.tag = tag then { s with last_pong := now } else s)

/-- `TCPControlProtocol._handle_message`: dispatch one decoded header +
payload.  External collaborators are inputs: `brightness`/`volume` are the
values `SystemActions.get_brightness/get_volume` return, `launchOk` tells
whether `launch_app` raised.  An `Except.error` result models an exception
propagating out of the handler (possible for a handshake or launch-app
payload that is too short). -/
def handleMessage (cfg : ServerConfig) (serverClient : Option ClientSession)
    (session : Option ClientSession) (peer : String × Nat)
    (brightness volume : ℚ) (launchOk : Bool)
    (freshTag freshSessionId : Nat) (now : ℚ)
    (msgType : MessageType) (payload : List Nat) : Except String HandleOut :=
  let keep : HandleOut :=
    { serverClient := serverClient, session := session, sent := [],
      closedTransport := false }
  match msgType with
  | .HANDSHAKE_REQ => do
      let req ← handshakeReqDecode payload
      return onHandshake serverClient session peer cfg req freshTag freshSessionId now
  | .PING => Except.ok { keep with sent := [encodeMsg .pong] }
  | .PONG =>
      match session with
      | some s => Except.ok { keep with
          serverClient := touchPong now s.tag serverClient,
          session := some { s with last_pong := now } }
      | none => Except.ok keep
  | .DISCONNECT => Except.ok { keep with
      serverClient := (match session with
        | some s => removeClient serverClient s
        | none => serverClient),
      session := none,
      closedTransport := true }
  | .GET_SYSTEM_STATE => Except.ok { keep with
      sent := [encodeMsg (.systemStateResponse brightness volume false false)] }
  | .LAUNCH_APP => do
      let la ← launchAppDecode payload
      if la.app_name.isEmpty then
        return { keep with sent := [encodeMsg (.commandError 0)] }
      else if launchOk then
        return { keep with sent := [encodeMsg (.ack 0)] }
      else
        return { keep with sent := [encodeMsg (.commandError 0)] }
  | t => Except.ok { keep with sent := [encode_error (unexpectedTypeText t)] }

/-- `TCPControlProtocol.is_alive`. -/
def is_alive (session : Option ClientSession) (now timeout : ℚ) : Bool :=
  match session with
  | none => false
  | some s => decide (now - s.last_pong < timeout)

/-- Per-connection state seen by the keepalive sweep. -/
structure ProtoState where
  session : Option ClientSession
  transportClosed : Bool
  deriving DecidableEq

/-- Outcome of one keepalive visit to one protocol. -/
structure KeepaliveOut where
  serverClient : Option ClientSession
  proto : ProtoState
  kept : Bool
  pingSent : Bool
  deriving DecidableEq

/-- The per-protocol body of `TCPControlServer._keepalive_loop`: for a
connection with a session, ping it if alive, else evict the session and
force-close the transport; sessionless protocols are dropped from the list
untouched. -/
def keepaliveVisit (cfg : ServerConfig) (now : ℚ)
    (serverClient : Option ClientSession) (p : ProtoState) : KeepaliveOut :=
  match p.session with
  | none => { serverClient := serverClient, proto := p, kept := false, pingSent := false }
  | some s =>
    if is_alive (some s) now (cfg.keepalive_timeout : ℚ) then
      { serverClient := serverClient, proto := p, kept := true, pingSent := true }
    else
      { serverClient := removeClient serverClient s,
        proto := { p with transportClosed := true },
        kept := false, pingSent := false }

/-- Calls into the input collaborators made by the UDP dispatcher
(`UDPDataProtocol._dispatch`): pointer, keyboard and system-action handlers. -/
inductive InputEffect
  | mouseMoveEv (timestamp : Nat) (dx dy : Int)
  | mouseClickEv (timestamp : Nat) (button : MouseButton) (action : ClickAction)
  | mouseScrollEv (timestamp : Nat) (dx dy : Int)
  | mouseDragEv (timestamp : Nat) (button : MouseButton) (dx dy : Int)
  | keyEv (timestamp : Nat) (action : KeyAction) (keycode modifiers : Nat)
  | lockScreenEv
  | powerDialogEv
  | sleepEv
  deriving DecidableEq

/-- `UDPDataProtocol._dispatch`: decode the payload per type and route to
exactly one handler; unknown system actions and unroutable types are ignored;
a decoding failure is an exception (`Except.error`) for the caller to catch. -/
def dispatchUDP (msgType : MessageType) (payload : List Nat) :
    Except String (List InputEffect) :=
  match msgType with
  | .MOUSE_MOVE => do
      let (ts, r1) ← rdU32 payload
      let (dx, r2) ← rdI16 r1
      let (dy, _) ← rdI16 r2
      return [.mouseMoveEv ts dx dy]
  | .MOUSE_CLICK => do
      let (ts, r1) ← rdU32 payload
      let (b, r2) ← rdU8 r1
      let (a, _) ← rdU8 r2
      match MouseButton.ofNat? b, ClickAction.ofNat? a with
      | some btn, some act => return [.mouseClickEv ts btn act]
      | _, _ => Except.error "InvalidEnumValue"
  | .MOUSE_SCROLL => do
      let (ts, r1) ← rdU32 payload
      let (dx, r2) ← rdI16 r1
      let (dy, _) ← rdI16 r2
      return [.mouseScrollEv ts dx dy]
  | .MOUSE_DRAG => do
      let (ts, r1) ← rdU32 payload
      let (b, r2) ← rdU8 r1
      let (dx, r3) ← rdI16 r2
      let (dy, _) ← rdI16 r3
      match MouseButton.ofNat? b with
      | some btn => return [.mouseDragEv ts btn dx dy]
      | none => Except.error "InvalidEnumValue"
  | .KEY_EVENT => do
      let (ts, r1) ← rdU32 payload
      let (a, r2) ← rdU8 r1
      let (kc, r3) ← rdU16 r2
      let (mods, _) ← rdU8 r3
      match KeyAction.ofNat? a with
      | some act => return [.keyEv ts act kc mods]
      | none => Except.error "InvalidEnumValue"
  | .SYSTEM_ACTION => do
      let (_, r1) ← rdU32 payload
      let (a, _) ← rdU8 r1
      match SystemActionId.ofNat? a with
      | none => Except.error "InvalidEnumValue"
      | some .LOCK_SCREEN => return [.lockScreenEv]
      | some .POWER_DIALOG => return [.powerDialogEv]
      | some .SLEEP => return [.sleepEv]
      | some _ => return []
  | _ => Except.ok []

/-- Header parse + payload slice + dispatch for one datagram, with the
failures (truncated or unknown header, decode errors) surfaced as
`Except.error` — the raising region of `datagram_received`. -/
def udpParse (d : List Nat) : Except String (List InputEffect) :=
  match d with
  | _ :: t :: hi :: lo :: rest =>
    match MessageType.ofNat? t with
    | none => Except.error "UnknownMessageType"
    | some mt => dispatchUDP mt (rest.take (hi * 256 + lo))
  | _ => Except.error "TruncatedHeader"

/-- `UDPDataProtocol.datagram_received`: runt drop, sender validation against
the control-plane session, then parse + dispatch with every exception caught
(yielding no effect).  Total by construction — no error escapes. -/
def datagram_received (client : Option ClientSession) (addr : String × Nat)
    (d : List Nat) : List InputEffect :=
  if d.length < HEADER_SIZE then []
  else
    match client with
    | none => []
    | some c =>
      if addr.1 ≠ c.addrIp then []
      else
        match udpParse d with
        | Except.ok effs => effs
        | Except.error _ => []

/-- Sequential processing of datagrams from one sender; the dispatcher keeps
no per-packet state, so effects concatenate. -/
def processDatagrams (client : Option ClientSession) (addr : String × Nat)
    (ds : List (List Nat)) : List InputEffect :=
  (ds.map (datagram_received client addr)).flatten

theorem u16e_length (n : Nat) : (u16e n).length = 2 := rfl

theorem u32e_length (n : Nat) : (u32e n).length = 4 := rfl

theorem i16e_length (x : Int) : (i16e x).length = 2 := rfl

theorem ljust0_length (l : List Nat) (w : Nat) (h : l.length ≤ w) :
    (ljust0 l w).length = w := by
  simp [ljust0]
  omega

theorem rdU16_u16e (n : Nat) (r : List Nat) : rdU16 (u16e n ++ r) = Except.ok (n, r) := by
  have h : n / 256 * 256 + n % 256 = n := by omega
  simp [rdU16, u16e, rdU8, h, Bind.bind, Except.bind, Functor.map, Except.map, Pure.pure, Except.pure]

theorem rdU32_u32e (n : Nat) (r : List Nat) : rdU32 (u32e n ++ r) = Except.ok (n, r) := by
  have h : n / 65536 * 65536 + n % 65536 = n := by omega
  rw [u32e, List.append_assoc]
  simp [rdU32, rdU16_u16e, h, Bind.bind, Except.bind, Functor.map, Except.map, Pure.pure, Except.pure]

theorem i16val_emod (x : Int) (h1 : -32768 ≤ x) (h2 : x < 32768) :
    i16val (x % 65536).toNat = x := by
  unfold i16val
  split <;> omega

theorem rdI16_i16e (x : Int) (r : List Nat) (h1 : -32768 ≤ x) (h2 : x < 32768) :
    rdI16 (i16e x ++ r) = Except.ok (x, r) := by
  simp [rdI16, i16e, rdU16_u16e, i16val_emod x h1 h2]

theorem rdU8_cons (b : Nat) (r : List Nat) : rdU8 (b :: r) = Except.ok (b, r) := rfl

theorem dropWhile_zeros (k : Nat) (l : List Nat) :
    List.dropWhile (fun b => b == 0) (List.replicate k 0 ++ l) =
      List.dropWhile (fun b => b == 0) l := by
  induction k with
  | zero => rfl
  | succ n ih => simp [List.replicate_succ, List.dropWhile, ih]

theorem rstrip0_append_replicate (name : List Nat) (k : Nat) :
    rstrip0 (name ++ List.replicate k 0) = rstrip0 name := by
  unfold rstrip0
  rw [List.reverse_append, List.reverse_replicate, dropWhile_zeros]

theorem rstrip0_ljust0 (name : List Nat) (w : Nat) (h : rstrip0 name = name) :
    rstrip0 (ljust0 name w) = name := by
  rw [ljust0, rstrip0_append_replicate, h]

theorem ok_bind {α β : Type} (a : α) (f : α → Except String β) :
    (Except.ok a >>= f) = f a := rfl

theorem error_bind {α β : Type} (e : String) (f : α → Except String β) :
    ((Except.error e : Except String α) >>= f) = Except.error e := rfl

theorem map_ok {α β : Type} (f : α → β) (a : α) :
    (f <$> (Except.ok a : Except String α)) = Except.ok (f a) := rfl

theorem map_error {α β : Type} (f : α → β) (e : String) :
    (f <$> (Except.error e : Except String α)) = Except.error e := rfl

theorem pure_eq_ok {α : Type} (a : α) : (pure a : Except String α) = Except.ok a := rfl

theorem rdU16_u16e_nil (n : Nat) : rdU16 (u16e n) = Except.ok (n, []) := by
  have := rdU16_u16e n []
  simpa using this

theorem rdI16_i16e_nil (x : Int) (h1 : -32768 ≤ x) (h2 : x < 32768) :
    rdI16 (i16e x) = Except.ok (x, []) := by
  have := rdI16_i16e x [] h1 h2
  simpa using this

theorem ofNat?_code (t : MessageType) : MessageType.ofNat? t.code = some t := by
  cases t <;> rfl

theorem div256_recompose (n : Nat) : n / 256 * 256 + n % 256 = n := by omega

theorem decodeMessage_encodeMsg (m : Message) :
    decodeMessage (encodeMsg m) = decodeBody m.msgType (encodePayload m) := by
  rw [encodeMsg, decodeMessage, ofNat?_code, div256_recompose, List.take_length]

theorem take_ljust0_32 (name : List Nat) (h : name.length ≤ 32) :
    (ljust0 name 32).take 32 = ljust0 name 32 :=
  List.take_of_length_le (by rw [ljust0_length _ _ h])

theorem decodeBody_handshakeReq (v f : Nat) (name : List Nat)
    (hlen : name.length ≤ 32) (hstrip : rstrip0 name = name) :
    decodeBody .HANDSHAKE_REQ (encodePayload (.handshakeReq v f name)) =
      Except.ok (.handshakeReq v f name) := by
  have hname : name.take 32 = name := List.take_of_length_le hlen
  simp only [encodePayload, hname, List.append_assoc]
  simp [decodeBody, rdU16_u16e, ok_bind, pure_eq_ok,
    take_ljust0_32 name hlen, rstrip0_ljust0 name 32 hstrip]

theorem decodeBody_handshakeAck (v f p k : Nat) :
    decodeBody .HANDSHAKE_ACK (encodePayload (.handshakeAck v f p k)) =
      Except.ok (.handshakeAck v f p k) := by
  simp [encodePayload, decodeBody, List.append_assoc, rdU16_u16e, rdU16_u16e_nil,
    ok_bind, pure_eq_ok]

theorem decodeBody_handshakeReject (v r : Nat) :
    decodeBody .HANDSHAKE_REJECT (encodePayload (.handshakeReject v r)) =
      Except.ok (.handshakeReject v r) := by
  simp [encodePayload, decodeBody, List.append_assoc, rdU16_u16e, rdU16_u16e_nil,
    ok_bind, pure_eq_ok]

theorem decodeBody_mouseMove (ts : Nat) (dx dy : Int)
    (hdx1 : -32768 ≤ dx) (hdx2 : dx < 32768) (hdy1 : -32768 ≤ dy) (hdy2 : dy < 32768) :
    decodeBody .MOUSE_MOVE (encodePayload (.mouseMove ts dx dy)) =
      Except.ok (.mouseMove ts dx dy) := by
  simp [encodePayload, decodeBody, List.append_assoc, rdU32_u32e,
    rdI16_i16e _ _ hdx1 hdx2, rdI16_i16e_nil _ hdy1 hdy2, ok_bind, pure_eq_ok]

theorem decodeBody_mouseClick (ts : Nat) (b : MouseButton) (a : ClickAction) :
    decodeBody .MOUSE_CLICK (encodePayload (.mouseClick ts b a)) =
      Except.ok (.mouseClick ts b a) := by
  cases b <;> cases a <;>
    simp [encodePayload, decodeBody, List.append_assoc, rdU32_u32e, rdU8,
      MouseButton.code, ClickAction.code, MouseButton.ofNat?, ClickAction.ofNat?,
      ok_bind, pure_eq_ok]

theorem decodeBody_mouseScroll (ts : Nat) (dx dy : Int)
    (hdx1 : -32768 ≤ dx) (hdx2 : dx < 32768) (hdy1 : -32768 ≤ dy) (hdy2 : dy < 32768) :
    decodeBody .MOUSE_SCROLL (encodePayload (.mouseScroll ts dx dy)) =
      Except.ok (.mouseScroll ts dx dy) := by
  simp [encodePayload, decodeBody, List.append_assoc, rdU32_u32e,
    rdI16_i16e _ _ hdx1 hdx2, rdI16_i16e_nil _ hdy1 hdy2, ok_bind, pure_eq_ok]

theorem decodeBody_mouseDrag (ts : Nat) (b : MouseButton) (dx dy : Int)
    (hdx1 : -32768 ≤ dx) (hdx2 : dx < 32768) (hdy1 : -32768 ≤ dy) (hdy2 : dy < 32768) :
    decodeBody .MOUSE_DRAG (encodePayload (.mouseDrag ts b dx dy)) =
      Except.ok (.mouseDrag ts b dx dy) := by
  cases b <;>
    simp [encodePayload, decodeBody, List.append_assoc, rdU32_u32e, rdU8,
      MouseButton.code, MouseButton.ofNat?,
      rdI16_i16e _ _ hdx1 hdx2, rdI16_i16e_nil _ hdy1 hdy2, ok_bind, pure_eq_ok]

theorem decodeBody_keyEvent (ts : Nat) (a : KeyAction) (kc mods : Nat) :
    decodeBody .KEY_EVENT (encodePayload (.keyEvent ts a kc mods)) =
      Except.ok (.keyEvent ts a kc mods) := by
  cases a <;>
    simp [encodePayload, decodeBody, List.append_assoc, rdU32_u32e, rdU8,
      KeyAction.code, KeyAction.ofNat?, rdU16_u16e, ok_bind, pure_eq_ok]

theorem decodeBody_systemAction (ts : Nat) (a : SystemActionId) :
    decodeBody .SYSTEM_ACTION (encodePayload (.systemAction ts a)) =
      Except.ok (.systemAction ts a) := by
  cases a <;>
    simp [encodePayload, decodeBody, List.append_assoc, rdU32_u32e, rdU8,
      SystemActionId.code, SystemActionId.ofNat?, ok_bind, pure_eq_ok]

theorem decodeBody_launchApp (ts : Nat) (name : List Nat) (hlen : name.length ≤ 128) :
    decodeBody .LAUNCH_APP (encodePayload (.launchApp ts name)) =
      Except.ok (.launchApp ts name) := by
  have hname : name.take 128 = name := List.take_of_length_le hlen
  simp [encodePayload, decodeBody, List.append_assoc, hname, rdU32_u32e, rdU8,
    List.take_of_length_le (le_refl name.length), ok_bind, pure_eq_ok]

theorem decodeBody_ssrFields (b v fl : Nat) :
    decodeBody .SYSTEM_STATE_RESPONSE (u16e b ++ u16e v ++ u16e fl) =
      Except.ok (.systemStateResponse ((b : ℚ) / 100) ((v : ℚ) / 100)
        ((fl &&& 1) != 0) ((fl &&& 2) != 0)) := by
  simp [decodeBody, List.append_assoc, rdU16_u16e, rdU16_u16e_nil, ok_bind, pure_eq_ok]

theorem decodeBody_ack (a : Nat) :
    decodeBody .ACK (encodePayload (.ack a)) = Except.ok (.ack a) := by
  simp [encodePayload, decodeBody, rdU8, ok_bind, pure_eq_ok]

theorem decodeBody_commandError (a : Nat) :
    decodeBody .COMMAND_ERROR (encodePayload (.commandError a)) =
      Except.ok (.commandError a) := by
  simp [encodePayload, decodeBody, rdU8, ok_bind, pure_eq_ok]

theorem decodeBody_errorText (msg : List Nat) (hlen : msg.length ≤ 256) :
    decodeBody .ERROR (encodePayload (.errorText msg)) = Except.ok (.errorText msg) := by
  simp [encodePayload, decodeBody, List.take_of_length_le hlen, pure_eq_ok]

theorem pyInt_eq_floor (q : ℚ) (h : 0 ≤ q) : pyInt q = ⌊q⌋ := by
  unfold pyInt
  rw [Int.tdiv_eq_ediv (by exact_mod_cast Rat.num_nonneg.mpr h) (by positivity)]
  rw [Rat.floor_def]

theorem pyInt_natCast (k : Nat) : pyInt (k : ℚ) = k := by
  unfold pyInt
  simp [Rat.num_natCast, Rat.den_natCast, Int.tdiv]

theorem pyInt_div100_mul (k : Nat) : pyInt ((k : ℚ) / 100 * 100) = k := by
  rw [show ((k : ℚ) / 100 * 100) = (k : ℚ) by field_simp]
  exact pyInt_natCast k

theorem pyInt_mul100_bounds (q : ℚ) (h0 : 0 ≤ q) (h1 : q ≤ 1) :
    0 ≤ pyInt (q * 100) ∧ pyInt (q * 100) ≤ 100 := by
  rw [pyInt_eq_floor _ (by positivity)]
  refine ⟨by positivity, ?_⟩
  have h : (q * 100 : ℚ) ≤ 100 := by linarith
  calc ⌊q * 100⌋ ≤ ⌊(100 : ℚ)⌋ := Int.floor_le_floor h
  _ = 100 := by norm_num

theorem ssrField_exact (k : Nat) (hk : k ≤ 65535) : ssrField ((k : ℚ) / 100) = k := by
  unfold ssrField
  rw [pyInt_div100_mul k]
  rw [Int.emod_eq_of_lt (by positivity) (by exact_mod_cast Nat.lt_succ_of_le hk)]
  simp

theorem ssrField_in01 (q : ℚ) (h0 : 0 ≤ q) (h1 : q ≤ 1) :
    (ssrField q : Int) = pyInt (q * 100) := by
  obtain ⟨hlo, hhi⟩ := pyInt_mul100_bounds q h0 h1
  unfold ssrField
  rw [Int.emod_eq_of_lt hlo (by omega)]
  omega

theorem ssrField_accuracy (q : ℚ) (h0 : 0 ≤ q) (h1 : q ≤ 1) :
    |(ssrField q : ℚ) / 100 - q| ≤ 1 / 100 := by
  have hfield : ((ssrField q : Int) : ℚ) = ((pyInt (q * 100) : Int) : ℚ) := by
    rw [ssrField_in01 q h0 h1]
  have hcast : (ssrField q : ℚ) = ((pyInt (q * 100) : Int) : ℚ) := by
    rw [← hfield]
    norm_cast
  rw [hcast, pyInt_eq_floor _ (by positivity)]
  have h2 : (⌊q * 100⌋ : ℚ) ≤ q * 100 := Int.floor_le _
  have h3 : q * 100 - 1 < (⌊q * 100⌋ : ℚ) := by
    have := Int.sub_one_lt_floor (q * 100)
    linarith
  rw [abs_le]
  constructor <;> [linarith; linarith]

theorem ssrFlags_bit0 (m l : Bool) : ((ssrFlags m l &&& 1) != 0) = m := by
  cases m <;> cases l <;> rfl

theorem ssrFlags_bit1 (m l : Bool) : ((ssrFlags m l &&& 2) != 0) = l := by
  cases m <;> cases l <;> rfl

theorem decodeBody_ssr_wf (b v : ℚ) (m l : Bool)
    (hb : ∃ k : Nat, k ≤ 65535 ∧ b = (k : ℚ) / 100)
    (hv : ∃ k : Nat, k ≤ 65535 ∧ v = (k : ℚ) / 100) :
    decodeBody .SYSTEM_STATE_RESPONSE (encodePayload (.systemStateResponse b v m l)) =
      Except.ok (.systemStateResponse b v m l) := by
  obtain ⟨kb, hkb, rfl⟩ := hb
  obtain ⟨kv, hkv, rfl⟩ := hv
  rw [encodePayload, decodeBody_ssrFields]
  rw [ssrField_exact kb hkb, ssrField_exact kv hkv, ssrFlags_bit0, ssrFlags_bit1]

/-- C1 (amended): decoding the encoding of any well-formed message returns the
message unchanged, for every variant and all valid field values — including a
client name of exactly 32 or 0 bytes, an app name of exactly 128 bytes, and
brightness/volume at 0.0 and 1.0 — where for the system-state response the
brightness/volume must be exact two-decimal values (integer multiples of 0.01
in the representable range), since the codec transmits them as fixed-point
hundredths. -/
theorem roundtrip_decode_encode (m : Message) (h : m.Wf) :
    decodeMessage (encodeMsg m) = Except.ok m := by
  rw [decodeMessage_encodeMsg]
  cases m with
  | handshakeReq v f name =>
      exact decodeBody_handshakeReq v f name h.2.2.1 h.2.2.2.2
  | handshakeAck v f p k => exact decodeBody_handshakeAck v f p k
  | handshakeReject v r => exact decodeBody_handshakeReject v r
  | ping => rfl
  | pong => rfl
  | disconnect => rfl
  | mouseMove ts dx dy =>
      exact decodeBody_mouseMove ts dx dy h.2.1 h.2.2.1 h.2.2.2.1 h.2.2.2.2
  | mouseClick ts b a => exact decodeBody_mouseClick ts b a
  | mouseScroll ts dx dy =>
      exact decodeBody_mouseScroll ts dx dy h.2.1 h.2.2.1 h.2.2.2.1 h.2.2.2.2
  | mouseDrag ts b dx dy =>
      exact decodeBody_mouseDrag ts b dx dy h.2.1 h.2.2.1 h.2.2.2.1 h.2.2.2.2
  | keyEvent ts a kc mods => exact decodeBody_keyEvent ts a kc mods
  | systemAction ts a => exact decodeBody_systemAction ts a
  | launchApp ts name => exact decodeBody_launchApp ts name h.2.1
  | getSystemState => rfl
  | systemStateResponse b v mu lo => exact decodeBody_ssr_wf b v mu lo h.1 h.2
  | ack a => exact decodeBody_ack a
  | commandError a => exact decodeBody_commandError a
  | errorText msg => exact decodeBody_errorText msg h.1

/-- C1 witness: a handshake request with a client name of exactly 32 bytes is
well-formed and round-trips. -/
theorem roundtrip_decode_encode_witness :
    (Message.handshakeReq 1 0 (List.replicate 32 65)).Wf ∧
    decodeMessage (encodeMsg (.handshakeReq 1 0 (List.replicate 32 65))) =
      Except.ok (.handshakeReq 1 0 (List.replicate 32 65)) :=
  ⟨by simp only [Message.Wf]; decide, roundtrip_decode_encode _ (by simp only [Message.Wf]; decide)⟩

/-- C1 counterexample: brightness 1/200 = 0.005 lies in the valid 0.0–1.0
range, yet `decode(encode(m))` returns brightness 0, so the round-trip claim
fails as stated for the system-state response. -/
theorem roundtrip_fails_for_ssr :
    (0 ≤ (1 : ℚ) / 200 ∧ (1 : ℚ) / 200 ≤ 1) ∧
    decodeMessage (encodeMsg (.systemStateResponse ((1 : ℚ) / 200) 0 false false)) ≠
      Except.ok (.systemStateResponse ((1 : ℚ) / 200) 0 false false) := by
  have hb : ssrField ((1 : ℚ) / 200) = 0 := by
    unfold ssrField
    rw [show ((1 : ℚ) / 200 * 100) = 1 / 2 by norm_num]
    rw [pyInt_eq_floor _ (by norm_num)]
    norm_num
  have hv : ssrField (0 : ℚ) = 0 := by
    unfold ssrField
    rw [show ((0 : ℚ) * 100) = ((0 : Nat) : ℚ) by norm_num]
    rw [pyInt_natCast]
    rfl
  refine ⟨⟨by norm_num, by norm_num⟩, ?_⟩
  rw [decodeMessage_encodeMsg]
  simp only [Message.msgType]
  rw [show encodePayload (.systemStateResponse ((1 : ℚ) / 200) 0 false false) =
        u16e 0 ++ u16e 0 ++ u16e 0 by rw [encodePayload, hb, hv]; rfl]
  rw [decodeBody_ssrFields]
  intro hcontra
  rw [Except.ok.injEq] at hcontra
  rw [Message.systemStateResponse.injEq] at hcontra
  have : ((0 : Nat) : ℚ) / 100 = (1 : ℚ) / 200 := hcontra.1
  norm_num at this

/-- C8: for every well-formed message, the payload length declared in the
header of `encode(m)` (bytes 2–3, big-endian) equals the exact number of
payload bytes following the 4-byte header, and the total encoded size never
exceeds 512 bytes. -/
theorem header_length_invariant (m : Message) (h : m.Wf) :
    (encodeMsg m).getD 2 0 * 256 + (encodeMsg m).getD 3 0 =
      ((encodeMsg m).drop HEADER_SIZE).length ∧
    (encodeMsg m).length ≤ MAX_PAYLOAD_SIZE := by
  have hp : (encodePayload m).length ≤ 508 := by
    cases m <;>
      simp [encodePayload, ljust0, u16e, u32e, i16e, List.length_append,
        List.length_take, List.length_replicate]
  constructor
  · simp [encodeMsg, HEADER_SIZE, List.getD]
    omega
  · simp [encodeMsg, MAX_PAYLOAD_SIZE]
    omega

/-- C8 witness: the invariant at a concrete launch-app message. -/
theorem header_length_invariant_witness :
    (Message.launchApp 12 [97, 98, 99]).Wf ∧
    ((encodeMsg (.launchApp 12 [97, 98, 99])).getD 2 0 * 256 +
        (encodeMsg (.launchApp 12 [97, 98, 99])).getD 3 0 =
      ((encodeMsg (.launchApp 12 [97, 98, 99])).drop HEADER_SIZE).length ∧
    (encodeMsg (.launchApp 12 [97, 98, 99])).length ≤ MAX_PAYLOAD_SIZE) :=
  ⟨by simp only [Message.Wf]; decide,
   header_length_invariant _ (by simp only [Message.Wf]; decide)⟩

/-- C9 (amended): brightness and volume are transmitted as `int(value * 100)`
reduced modulo 2^16 (masked with 0xFFFF — wrapped, not clamped) in an unsigned
16-bit big-endian field and decoded by dividing by 100; for caller-supplied
values in 0.0–1.0 the mask is inert and the decoded value equals the original
to within ±0.01. -/
theorem ssr_encode_accuracy (b v : ℚ)
    (hb0 : 0 ≤ b) (hb1 : b ≤ 1) (hv0 : 0 ≤ v) (hv1 : v ≤ 1) :
    ssrField b = (pyInt (b * 100) % 65536).toNat ∧
    decodeMessage (encodeMsg (.systemStateResponse b v false false)) =
      Except.ok (.systemStateResponse ((ssrField b : ℚ) / 100)
        ((ssrField v : ℚ) / 100) false false) ∧
    |(ssrField b : ℚ) / 100 - b| ≤ 1 / 100 ∧
    |(ssrField v : ℚ) / 100 - v| ≤ 1 / 100 := by
  refine ⟨rfl, ?_, ssrField_accuracy b hb0 hb1, ssrField_accuracy v hv0 hv1⟩
  rw [decodeMessage_encodeMsg]
  simp only [Message.msgType, encodePayload]
  rw [decodeBody_ssrFields]
  rfl

/-- C9 witness: the bound at brightness 1/3 and volume 1. -/
theorem ssr_encode_accuracy_witness :
    decodeMessage (encodeMsg (.systemStateResponse ((1 : ℚ) / 3) 1 false false)) =
      Except.ok (.systemStateResponse ((ssrField ((1 : ℚ) / 3) : ℚ) / 100)
        ((ssrField (1 : ℚ) : ℚ) / 100) false false) ∧
    |(ssrField ((1 : ℚ) / 3) : ℚ) / 100 - (1 : ℚ) / 3| ≤ 1 / 100 ∧
    |(ssrField (1 : ℚ) : ℚ) / 100 - (1 : ℚ)| ≤ 1 / 100 := by
  have h := ssr_encode_accuracy ((1 : ℚ) / 3) 1
    (by norm_num) (by norm_num) (by norm_num) (by norm_num)
  exact ⟨h.2.1, h.2.2.1, h.2.2.2⟩

/-- C9 counterexample: the encoder does not clamp to the representable
0–655.35 range: brightness 656.0 is encoded as field value 64 (65600 mod
65536), not as the clamped maximum 65535. -/
theorem ssr_field_wraps_not_clamps :
    ssrField 656 = 64 ∧ ssrField 656 ≠ 65535 ∧ (655 : ℚ) + 35 / 100 < 656 := by
  have h : ssrField (656 : ℚ) = 64 := by
    unfold ssrField
    rw [show ((656 : ℚ) * 100) = ((65600 : Nat) : ℚ) by norm_num]
    rw [pyInt_natCast]
    rfl
  exact ⟨h, by rw [h]; omega, by norm_num⟩

/-- C2 (amended): the stream handler dispatches without consulting handshake
state: a message whose type is outside the handled set (not handshake-request,
ping, pong, disconnect, get-system-state, or launch-app) elicits an `error`
reply embedding a human-readable description and leaves the connection open
and the session state unchanged, whether or not a handshake has completed;
the handled types are processed the same way in both states. -/
theorem unexpected_type_error_reply (cfg : ServerConfig)
    (sc sess : Option ClientSession) (peer : String × Nat) (b v : ℚ)
    (lk : Bool) (ft fsid : Nat) (now : ℚ) (t : MessageType) (payload : List Nat)
    (h1 : t ≠ .HANDSHAKE_REQ) (h2 : t ≠ .PING) (h3 : t ≠ .PONG)
    (h4 : t ≠ .DISCONNECT) (h5 : t ≠ .GET_SYSTEM_STATE) (h6 : t ≠ .LAUNCH_APP) :
    handleMessage cfg sc sess peer b v lk ft fsid now t payload =
      Except.ok
        { serverClient := sc, session := sess,
          sent := [encode_error (unexpectedTypeText t)], closedTransport := false } := by
  cases t with
  | HANDSHAKE_REQ => exact absurd rfl h1
  | PING => exact absurd rfl h2
  | PONG => exact absurd rfl h3
  | DISCONNECT => exact absurd rfl h4
  | GET_SYSTEM_STATE => exact absurd rfl h5
  | LAUNCH_APP => exact absurd rfl h6
  | HANDSHAKE_ACK => rfl
  | HANDSHAKE_REJECT => rfl
  | MOUSE_MOVE => rfl
  | MOUSE_CLICK => rfl
  | MOUSE_SCROLL => rfl
  | MOUSE_DRAG => rfl
  | KEY_EVENT => rfl
  | SYSTEM_ACTION => rfl
  | SYSTEM_STATE_RESPONSE => rfl
  | ACK => rfl
  | COMMAND_ERROR => rfl
  | ERROR => rfl

/-- C2 amended-claim witness: a MOUSE_MOVE on the stream channel before any
handshake draws an error reply without closing the connection. -/
theorem unexpected_type_error_reply_witness :
    handleMessage ⟨9801, 5, 3⟩ none none ("127.0.0.1", 5123) 0 0 true 0 0 0
        .MOUSE_MOVE [] =
      Except.ok
        { serverClient := none, session := none,
          sent := [encode_error (unexpectedTypeText .MOUSE_MOVE)],
          closedTransport := false } :=
  unexpected_type_error_reply _ _ _ _ _ _ _ _ _ _ _ _
    (by decide) (by decide) (by decide) (by decide) (by decide) (by decide)

/-- C2 counterexample: a PING received in `AwaitingHandshake` (no session) is
answered with a PONG — not with an `error` message — so the claim that any
non-handshake message in that state elicits an error reply is false. -/
theorem ping_before_handshake_gets_pong :
    handleMessage ⟨9801, 5, 3⟩ none none ("127.0.0.1", 5123) 0 0 true 0 0 0
        .PING [] =
      Except.ok
        { serverClient := none, session := none,
          sent := [encodeMsg .pong], closedTransport := false } ∧
    decodeMessage (encodeMsg .pong) = Except.ok .pong ∧
    Message.pong.msgType ≠ MessageType.ERROR := by
  exact ⟨rfl, rfl, by decide⟩

/-- C3 (amended): a handshake request whose declared version matches the
server's, received while a session is already active, is answered with a
handshake-rejection carrying reason code 2 (busy) and leaves the active
session and the connection untouched; with a mismatched version the rejection
carries reason code 1 instead (the version check precedes the busy check),
still leaving the active session untouched. -/
theorem busy_handshake_rejected (sc sess : Option ClientSession)
    (peer : String × Nat) (cfg : ServerConfig) (req : HandshakeReqD)
    (ft fsid : Nat) (now : ℚ) (c : ClientSession) (hc : sc = some c) :
    (req.client_version = PROTOCOL_VERSION →
      onHandshake sc sess peer cfg req ft fsid now =
        { serverClient := some c, session := sess,
          sent := [encodeMsg (.handshakeReject PROTOCOL_VERSION 2)],
          closedTransport := false }) ∧
    (req.client_version ≠ PROTOCOL_VERSION →
      onHandshake sc sess peer cfg req ft fsid now =
        { serverClient := some c, session := sess,
          sent := [encodeMsg (.handshakeReject PROTOCOL_VERSION 1)],
          closedTransport := false }) := by
  subst hc
  constructor
  · intro hv
    simp [onHandshake, hv]
  · intro hv
    simp [onHandshake, hv]

/-- C3 amended-claim witness: a matching-version handshake while busy is
rejected with reason 2. -/
theorem busy_handshake_rejected_witness :
    onHandshake (some ⟨1, [], "10.0.0.5", 4242, 1, 99, 0, 0⟩) none
        ("10.0.0.6", 5000) ⟨9801, 5, 3⟩ ⟨1, 0, [80]⟩ 7 7 0 =
      { serverClient := some ⟨1, [], "10.0.0.5", 4242, 1, 99, 0, 0⟩,
        session := none,
        sent := [encodeMsg (.handshakeReject PROTOCOL_VERSION 2)],
        closedTransport := false } :=
  (busy_handshake_rejected _ _ _ _ _ _ _ _ _ rfl).1 (by decide)

/-- C3 counterexample: while a session is active, a handshake request with a
mismatched version (2) is rejected with reason code 1, not 2 — the claim that
a second handshake while busy always yields reason 2 is false. -/
theorem busy_mismatch_gets_reason1 :
    onHandshake (some ⟨1, [], "10.0.0.5", 4242, 1, 99, 0, 0⟩) none
        ("10.0.0.6", 5000) ⟨9801, 5, 3⟩ ⟨2, 0, [80]⟩ 7 7 0 =
      { serverClient := some ⟨1, [], "10.0.0.5", 4242, 1, 99, 0, 0⟩,
        session := none,
        sent := [encodeMsg (.handshakeReject PROTOCOL_VERSION 1)],
        closedTransport := false } ∧
    encodeMsg (.handshakeReject PROTOCOL_VERSION 1) ≠
      encodeMsg (.handshakeReject PROTOCOL_VERSION 2) := by
  exact ⟨rfl, by decide⟩

/-- C4: a handshake request whose declared client protocol version differs
from the server's is answered with a handshake-rejection carrying reason code
1 (version mismatch); no session is created or registered (both the server
slot and the connection's session are unchanged) and the connection is not
closed. -/
theorem version_mismatch_rejected (sc sess : Option ClientSession)
    (peer : String × Nat) (cfg : ServerConfig) (req : HandshakeReqD)
    (ft fsid : Nat) (now : ℚ) (h : req.client_version ≠ PROTOCOL_VERSION) :
    onHandshake sc sess peer cfg req ft fsid now =
      { serverClient := sc, session := sess,
        sent := [encodeMsg (.handshakeReject PROTOCOL_VERSION 1)],
        closedTransport := false } := by
  simp [onHandshake, h]

/-- C4 witness: a version-2 handshake against the version-1 server is
rejected with reason 1 and leaves no session. -/
theorem version_mismatch_rejected_witness :
    onHandshake none none ("10.0.0.6", 5000) ⟨9801, 5, 3⟩ ⟨2, 0, [80]⟩ 7 7 0 =
      { serverClient := none, session := none,
        sent := [encodeMsg (.handshakeReject PROTOCOL_VERSION 1)],
        closedTransport := false } :=
  version_mismatch_rejected _ _ _ _ _ _ _ _ (by decide)

/-- C5 (amended): on a keepalive tick, a connection holding an active session
is evicted (session deregistered via `removeClient`, transport force-closed,
no ping) exactly when the time since the session's last received pong is at
least `keepalive_interval × keepalive_timeout_multiplier` — i.e. reaches or
exceeds the deadline — and otherwise a ping is sent and the session is kept;
eviction happens already at exactly the deadline, not only strictly past it. -/
theorem keepalive_eviction_iff (cfg : ServerConfig) (now : ℚ)
    (sc : Option ClientSession) (p : ProtoState) (s : ClientSession)
    (hs : p.session = some s) :
    ((cfg.keepalive_timeout : ℚ) =
        (cfg.keepalive_interval : ℚ) * (cfg.keepalive_timeout_multiplier : ℚ)) ∧
    (((cfg.keepalive_timeout : ℚ) ≤ now - s.last_pong) →
      keepaliveVisit cfg now sc p =
        { serverClient := removeClient sc s,
          proto := { p with transportClosed := true },
          kept := false, pingSent := false }) ∧
    ((now - s.last_pong < (cfg.keepalive_timeout : ℚ)) →
      keepaliveVisit cfg now sc p =
        { serverClient := sc, proto := p, kept := true, pingSent := true }) := by
  refine ⟨?_, ?_, ?_⟩
  · rw [ServerConfig.keepalive_timeout]
    push_cast
    ring
  · intro h
    have hdead : ¬(now - s.last_pong < (cfg.keepalive_timeout : ℚ)) := not_lt.mpr h
    simp [keepaliveVisit, hs, is_alive, hdead]
  · intro h
    simp [keepaliveVisit, hs, is_alive, h]

/-- C5 amended-claim witness: with interval 5 and multiplier 3, a session
whose last pong is 14 seconds old at tick time 14 is pinged, not evicted. -/
theorem keepalive_eviction_iff_witness :
    keepaliveVisit ⟨9801, 5, 3⟩ 14 (some ⟨1, [], "10.0.0.5", 4242, 1, 99, 0, 0⟩)
        ⟨some ⟨1, [], "10.0.0.5", 4242, 1, 99, 0, 0⟩, false⟩ =
      { serverClient := some ⟨1, [], "10.0.0.5", 4242, 1, 99, 0, 0⟩,
        proto := ⟨some ⟨1, [], "10.0.0.5", 4242, 1, 99, 0, 0⟩, false⟩,
        kept := true, pingSent := true } :=
  (keepalive_eviction_iff ⟨9801, 5, 3⟩ 14 _ _ _ rfl).2.2 (by norm_num [ServerConfig.keepalive_timeout])

/-- C5 counterexample: at exactly the deadline (elapsed = interval ×
multiplier = 15, which does not *exceed* 15) the implementation already
evicts the session and closes the transport, so the claimed strict-excess
eviction condition is false. -/
theorem keepalive_evicts_at_exact_deadline :
    (15 : ℚ) - (0 : ℚ) = ((⟨9801, 5, 3⟩ : ServerConfig).keepalive_timeout : ℚ) ∧
    keepaliveVisit ⟨9801, 5, 3⟩ 15 (some ⟨1, [], "10.0.0.5", 4242, 1, 99, 0, 0⟩)
        ⟨some ⟨1, [], "10.0.0.5", 4242, 1, 99, 0, 0⟩, false⟩ =
      { serverClient := none,
        proto := ⟨some ⟨1, [], "10.0.0.5", 4242, 1, 99, 0, 0⟩, true⟩,
        kept := false, pingSent := false } := by
  constructor
  · norm_num [ServerConfig.keepalive_timeout]
  · have hdead : ¬((15 : ℚ) - 0 < ((⟨9801, 5, 3⟩ : ServerConfig).keepalive_timeout : ℚ)) := by
      norm_num [ServerConfig.keepalive_timeout]
    simp [keepaliveVisit, is_alive, hdead, removeClient]
    norm_num [ServerConfig.keepalive_timeout]

/-- C6: a datagram arriving while no session is active, or from a source IP
different from the active session's registered IP, is dropped silently: no
input handler is invoked (no effect is produced). -/
theorem udp_sender_isolation (client : Option ClientSession)
    (addr : String × Nat) (d : List Nat)
    (h : ∀ c, client = some c → addr.1 ≠ c.addrIp) :
    datagram_received client addr d = [] := by
  unfold datagram_received
  cases client with
  | none => simp
  | some c => simp [h c rfl]

/-- C6 witness: a key-event datagram from a non-matching IP produces no
effect even though it would decode. -/
theorem udp_sender_isolation_witness :
    datagram_received (some ⟨1, [], "10.0.0.5", 4242, 1, 99, 0, 0⟩)
      ("10.0.0.99", 7000) [1, 0x30, 0, 8, 0, 0, 0, 1, 0, 0, 4, 0] = [] :=
  udp_sender_isolation _ _ _
    (fun c hc => by
      rw [Option.some.injEq] at hc
      rw [← hc]
      decide)

/-- C7: the per-datagram handler is total — any decoding or dispatch failure
on one datagram is caught inside the handler, yielding no effect — so a
corrupt datagram immediately followed by a valid one leaves the valid one
processed exactly as if the corrupt one had never arrived. -/
theorem udp_fault_isolation (client : Option ClientSession)
    (addr : String × Nat) (d1 d2 : List Nat)
    (h : ∃ e, udpParse d1 = Except.error e) :
    datagram_received client addr d1 = [] ∧
    processDatagrams client addr [d1, d2] = datagram_received client addr d2 := by
  obtain ⟨e, he⟩ := h
  have h1 : datagram_received client addr d1 = [] := by
    unfold datagram_received
    split
    · rfl
    · cases client with
      | none => rfl
      | some c =>
        by_cases hip : addr.1 ≠ c.addrIp
        · simp [hip]
        · simp [hip, he]
  refine ⟨h1, ?_⟩
  simp [processDatagrams, h1]

/-- C7 witness: an unknown-type datagram followed by a valid key event from
the admitted sender: the corrupt one is swallowed, the valid one dispatches
one keyboard event. -/
theorem udp_fault_isolation_witness :
    datagram_received (some ⟨1, [], "10.0.0.5", 4242, 1, 99, 0, 0⟩)
      ("10.0.0.5", 7000) [1, 0x99, 0, 0] = [] ∧
    processDatagrams (some ⟨1, [], "10.0.0.5", 4242, 1, 99, 0, 0⟩)
      ("10.0.0.5", 7000)
      [[1, 0x99, 0, 0], [1, 0x30, 0, 8, 0, 0, 0, 1, 0, 0, 4, 0]] =
      datagram_received (some ⟨1, [], "10.0.0.5", 4242, 1, 99, 0, 0⟩)
        ("10.0.0.5", 7000) [1, 0x30, 0, 8, 0, 0, 0, 1, 0, 0, 4, 0] :=
  udp_fault_isolation _ _ _ _ ⟨"UnknownMessageType", rfl⟩

/-- C10 (implicit): removing a session clears the server's single
active-session slot only when the removed session is the identical object
(same identity tag) as the registered one; removing a stale session — via
`remove_client` directly, via `connection_lost`, or via keepalive eviction —
never unregisters a different, newly admitted session. -/
theorem remove_client_identity (cfg : ServerConfig) (now : ℚ)
    (cur stale : ClientSession) (hne : cur.tag ≠ stale.tag) :
    removeClient (some cur) cur = none ∧
    removeClient (some cur) stale = some cur ∧
    (connectionLost (some cur) (some stale)).1 = some cur ∧
    (keepaliveVisit cfg now (some cur) ⟨some stale, false⟩).serverClient = some cur := by
  refine ⟨by simp [removeClient], by simp [removeClient, hne], ?_, ?_⟩
  · simp [connectionLost, removeClient, hne]
  · unfold keepaliveVisit
    by_cases h : is_alive (some stale) now (cfg.keepalive_timeout : ℚ)
    · simp [h]
    · simp [h, removeClient, hne]

/-- C10 witness: a stale session with tag 7 cannot unregister the admitted
session with tag 2 on any removal path. -/
theorem remove_client_identity_witness :
    removeClient (some ⟨2, [], "10.0.0.5", 4242, 1, 99, 0, 0⟩)
        ⟨2, [], "10.0.0.5", 4242, 1, 99, 0, 0⟩ = none ∧
    removeClient (some ⟨2, [], "10.0.0.5", 4242, 1, 99, 0, 0⟩)
        ⟨7, [], "10.0.0.9", 4242, 1, 98, 0, 0⟩ =
      some ⟨2, [], "10.0.0.5", 4242, 1, 99, 0, 0⟩ ∧
    (connectionLost (some ⟨2, [], "10.0.0.5", 4242, 1, 99, 0, 0⟩)
        (some ⟨7, [], "10.0.0.9", 4242, 1, 98, 0, 0⟩)).1 =
      some ⟨2, [], "10.0.0.5", 4242, 1, 99, 0, 0⟩ ∧
    (keepaliveVisit ⟨9801, 5, 3⟩ 0 (some ⟨2, [], "10.0.0.5", 4242, 1, 99, 0, 0⟩)
        ⟨some ⟨7, [], "10.0.0.9", 4242, 1, 98, 0, 0⟩, false⟩).serverClient =
      some ⟨2, [], "10.0.0.5", 4242, 1, 99, 0, 0⟩ :=
  remove_client_identity ⟨9801, 5, 3⟩ 0 _ _ (by decide)
